import Mathlib

/-!
# Verification of the Vern_Engine bootstrap skeleton

Shallow embedding of the Vern engine bootstrap (Core.h, Log.h, Application.h,
Entrypoint.h, SandboxApp.cpp) and proofs about it.  C++ preprocessor
configuration becomes an explicit record of defined macros; the static `Log`
holder becomes an explicit state record; `main` becomes a state-passing
function producing a trace of events; the heap of `new`-allocated application
objects becomes a list of cells with address 0 playing the role of `nullptr`.
-/

namespace Vern

/-! ## Preprocessor model for Core.h -/

/-- The compiler-provided predefined macros that `Core.h` inspects, plus the
build option `VERN_BUILD_DLL`.  `targetOsMac` is the value carried by
`TARGET_OS_MAC` in `TargetConditionals.h` on an Apple/Mach toolchain. -/
structure PPConfig where
  win32 : Bool        -- _WIN32 defined
  win64 : Bool        -- _WIN64 defined
  apple : Bool        -- __APPLE__ defined
  mach : Bool         -- __MACH__ defined
  targetOsMac : Nat   -- value of TARGET_OS_MAC
  linux : Bool        -- __linux__ defined
  buildDll : Bool     -- VERN_BUILD_DLL defined
deriving DecidableEq, Repr

/-- The three platform macros one of which `Core.h` may define. -/
inductive Platform where
  | windows   -- VERN_PLATFORM_WINDOWS
  | macos     -- VERN_PLATFORM_MACOS
  | linux     -- VERN_PLATFORM_LINUX
deriving DecidableEq, Repr

/-- The platform-detection `#if` chain of `Core.h` lines 3–22: an `#error`
directive becomes `Except.error` with the directive's message. -/
def detectPlatform (c : PPConfig) : Except String Platform :=
  if c.win32 then
    if c.win64 then Except.ok Platform.windows
    else Except.error "x86 Builds are not supported!"
  else if c.apple || c.mach then
    if c.targetOsMac = 1 then Except.ok Platform.macos
    else Except.error "Unknown Apple platform!"
  else if c.linux then Except.ok Platform.linux
  else Except.error "Unknown platform!"

/-- Possible expansions of the visibility macro `VERN_API`. -/
inductive ApiExpansion where
  | dllexport   -- __declspec(dllexport)
  | dllimport   -- __declspec(dllimport)
  | empty       -- expands to nothing
deriving DecidableEq, Repr

/-- The `VERN_API` definition of `Core.h` lines 24–33, as a function of
whether `VERN_PLATFORM_WINDOWS` was defined by the detection above and
whether `VERN_BUILD_DLL` is defined. -/
def vernApi (windowsDefined buildDll : Bool) : ApiExpansion :=
  if windowsDefined then
    if buildDll then ApiExpansion.dllexport else ApiExpansion.dllimport
  else ApiExpansion.empty

/-- The macro `VERN_API` for a full preprocessor configuration: platform detection may
abort compilation first. -/
def vernApiOf (c : PPConfig) : Except String ApiExpansion :=
  match detectPlatform c with
  | Except.error m => Except.error m
  | Except.ok p => Except.ok (vernApi (p = Platform.windows) c.buildDll)

/-! ## C++ class-declaration model for Application.h and SandboxApp.cpp -/

/-- Kinds of class members we track. -/
inductive MemberKind where
  | ctor
  | dtor
  | method
deriving DecidableEq, Repr

/-- A declared class member with its virtual-ness flags. -/
structure Member where
  mname : String
  kind : MemberKind
  isVirtual : Bool
  isPureVirtual : Bool
deriving DecidableEq, Repr

/-- A C++ class declaration: name, list of public base classes, members. -/
structure ClassDecl where
  cname : String
  bases : List String
  members : List Member
deriving DecidableEq, Repr

/-- A C++ class is abstract iff it declares (or inherits) a pure virtual
member function; neither `Application` nor `Sandbox` inherits anything
with members, so declared members suffice here. -/
def ClassDecl.isAbstract (c : ClassDecl) : Bool :=
  c.members.any (fun m => m.isPureVirtual)

/-- The declaration of `Vern::Application` in `Application.h` lines 7–17:
a public constructor, a virtual destructor, and a plain non-virtual
`Run()`. -/
def ApplicationDecl : ClassDecl :=
  { cname := "Vern::Application"
    bases := []
    members :=
      [ { mname := "Application", kind := MemberKind.ctor,
          isVirtual := false, isPureVirtual := false }
      , { mname := "~Application", kind := MemberKind.dtor,
          isVirtual := true, isPureVirtual := false }
      , { mname := "Run", kind := MemberKind.method,
          isVirtual := false, isPureVirtual := false } ] }

/-- The declaration of `Sandbox` in `SandboxApp.cpp` lines 4–12: publicly
derived from `Vern::Application`, with a constructor (printing a line to
stdout) and a destructor. -/
def SandboxDecl : ClassDecl :=
  { cname := "Sandbox"
    bases := ["Vern::Application"]
    members :=
      [ { mname := "Sandbox", kind := MemberKind.ctor,
          isVirtual := false, isPureVirtual := false }
      , { mname := "~Sandbox", kind := MemberKind.dtor,
          isVirtual := false, isPureVirtual := false } ] }

/-! ## Function definitions present in the provided source -/

/-- A function definition (a body, not a mere declaration) occurring in one
of the provided source files. -/
structure CppDef where
  file : String
  qualName : String
deriving DecidableEq, Repr

/-- Every function definition in the five provided source files.
`Vern::Log::Init`, `Vern::Application::Application`,
`Vern::Application::~Application` and `Vern::Application::Run` are declared
but defined nowhere under the provided source. -/
def srcDefinitions : List CppDef :=
  [ { file := "src/Sandbox/src/SandboxApp.cpp", qualName := "Sandbox::Sandbox" }
  , { file := "src/Sandbox/src/SandboxApp.cpp", qualName := "Sandbox::~Sandbox" }
  , { file := "src/Sandbox/src/SandboxApp.cpp", qualName := "Vern::CreateApplication" }
  , { file := "src/Vern/src/Vern/Log.h", qualName := "Vern::Log::getCoreLogger" }
  , { file := "src/Vern/src/Vern/Log.h", qualName := "Vern::Log::getClientLogger" }
  , { file := "src/Vern/src/Vern/Entrypoint.h", qualName := "main" } ]

/-! ## Log.h: the static `Log` holder and the logging macros -/

/-- The five spdlog severity methods used by the macros. -/
inductive Level where
  | trace
  | info
  | warn
  | error
  | fatal
deriving DecidableEq, Repr

/-- The two logging channels held by `Vern::Log`. -/
inductive Channel where
  | core
  | client
deriving DecidableEq, Repr

/-- The static data of `Vern::Log`: the two `std::shared_ptr<spdlog::logger>`
handles.  `none` models a null `shared_ptr` (the zero-initialized state of a
static before `Init` runs); `some n` models a handle to logger object `n`. -/
structure LogState where
  s_CoreLogger : Option Nat
  s_ClientLogger : Option Nat
deriving DecidableEq, Repr

/-- The getter `Vern::Log::getCoreLogger` (Log.h line 14): returns the static core
handle. -/
def Log.getCoreLogger (s : LogState) : Option Nat :=
  s.s_CoreLogger

/-- The getter `Vern::Log::getClientLogger` (Log.h line 15): returns the static client
handle. -/
def Log.getClientLogger (s : LogState) : Option Nat :=
  s.s_ClientLogger

/-- Modelled from the spec: the definition of `Vern::Log::Init` (a `Log.cpp`)
is not among the provided source files, only its declaration in `Log.h`.
The spec describes "two independently configured named logging channels",
so `Init` is modelled as installing two distinct non-null logger handles,
one per channel. -/
def Log.Init (_s : LogState) : LogState :=
  { s_CoreLogger := some 1, s_ClientLogger := some 2 }

/-- One of the ten `VERN_*` logging macros of Log.h lines 24–36: its name,
the channel whose getter it calls, and the spdlog method it invokes. -/
structure LogDirective where
  name : String
  channel : Channel
  level : Level
deriving DecidableEq, Repr

/-- The ten logging macros, exactly as listed in Log.h lines 24–36. -/
def logDirectives : List LogDirective :=
  [ { name := "VERN_CORE_TRACE", channel := Channel.core, level := Level.trace }
  , { name := "VERN_CORE_INFO", channel := Channel.core, level := Level.info }
  , { name := "VERN_CORE_WARN", channel := Channel.core, level := Level.warn }
  , { name := "VERN_CORE_ERROR", channel := Channel.core, level := Level.error }
  , { name := "VERN_CORE_FATAL", channel := Channel.core, level := Level.fatal }
  , { name := "VERN_TRACE", channel := Channel.client, level := Level.trace }
  , { name := "VERN_INFO", channel := Channel.client, level := Level.info }
  , { name := "VERN_WARN", channel := Channel.client, level := Level.warn }
  , { name := "VERN_ERROR", channel := Channel.client, level := Level.error }
  , { name := "VERN_FATAL", channel := Channel.client, level := Level.fatal } ]

/-- A call into spdlog, as issued by an expanded logging macro: the handle it
dispatched through, the severity method, and the arguments it forwarded. -/
structure SpdlogCall where
  handle : Option Nat
  level : Level
  args : List String
deriving DecidableEq, Repr

/-- Expansion of a logging macro at a given `Log` state: a `VERN_CORE_*`
macro reads the handle through `getCoreLogger`, a client `VERN_*` macro
through `getClientLogger`, and the macro forwards `__VA_ARGS__` verbatim to
the spdlog method — `Log` itself neither formats nor outputs. -/
def expandDirective (s : LogState) (m : LogDirective) (args : List String) : SpdlogCall :=
  { handle :=
      match m.channel with
      | Channel.core => Log.getCoreLogger s
      | Channel.client => Log.getClientLogger s
    level := m.level
    args := args }

/-! ## Heap model for `new`/`delete` of application objects -/

/-- Dynamic types of heap-allocated application objects in this program. -/
inductive ObjClass where
  | sandboxObj
deriving DecidableEq, Repr

/-- The `nullptr` address. -/
def nullptr : Nat := 0

/-- A heap of application objects: cell `i` holds the object at address
`i + 1` (address 0 is `nullptr` and is never a cell), `none` marking a
freed cell. -/
structure Heap where
  cells : List (Option ObjClass)
deriving DecidableEq, Repr

/-- The empty heap. -/
def Heap.empty : Heap :=
  { cells := [] }

/-- Model of `new C`: appends a live cell and returns its (fresh, non-null)
address. -/
def Heap.alloc (h : Heap) (c : ObjClass) : Nat × Heap :=
  (h.cells.length + 1, { cells := h.cells ++ [some c] })

/-- Read the object at an address, `none` for `nullptr`, out-of-range and
freed addresses. -/
def Heap.lookup (h : Heap) (a : Nat) : Option ObjClass :=
  if a = 0 then none else (h.cells.getD (a - 1) none)

/-- Model of `delete`: marks the cell freed. -/
def Heap.free (h : Heap) (a : Nat) : Heap :=
  { cells := h.cells.set (a - 1) none }

/-! ## SandboxApp.cpp: the client factory -/

/-- The line the `Sandbox` constructor writes to stdout. -/
def sandboxCtorOutput : String := "Sandbox Application Created!"

/-- The factory `Vern::CreateApplication` as defined in `SandboxApp.cpp` lines 14–16:
`return new Sandbox();` — heap-allocates a `Sandbox` (whose constructor
prints one line) and returns the pointer, together with the new heap and
the console output produced. -/
def CreateApplication (h : Heap) : Nat × Heap × List String :=
  let r := h.alloc ObjClass.sandboxObj
  (r.1, r.2, [sandboxCtorOutput])

/-- Modelled from the spec: no definition of `Vern::Application::Run` exists
among the provided source files ("an unimplemented `Run()`"), so `Run` is
modelled as having no observable effect on any state. -/
def Application.Run (_receiver : Nat) (s : LogState × Heap) : LogState × Heap :=
  s

/-! ## Entrypoint.h: the framework-provided `main` -/

/-- The operations `main` performs, in order, as observable events. -/
inductive Event where
  | logInit
  | logCall (ch : Channel) (call : SpdlogCall)
  | callCreateApplication (ret : Nat)
  | callRun (receiver : Nat)
  | deleteApp (a : Nat)
deriving DecidableEq, Repr

/-- The whole observable program state threaded through `main`: the static
`Log` data, the heap of application objects, the trace of events so far and
the accumulated console output. -/
structure ProgState where
  log : LogState
  heap : Heap
  events : List Event
  out : List String
deriving DecidableEq, Repr

/-- Program state at process start: static `shared_ptr`s are
zero-initialized (null), the heap is empty, nothing has happened. -/
def initialState : ProgState :=
  { log := { s_CoreLogger := none, s_ClientLogger := none }
    heap := Heap.empty
    events := []
    out := [] }

/-- The `VERN_CORE_WARN` macro entry. -/
def vernCoreWarn : LogDirective :=
  { name := "VERN_CORE_WARN", channel := Channel.core, level := Level.warn }

/-- The `VERN_INFO` macro entry. -/
def vernInfo : LogDirective :=
  { name := "VERN_INFO", channel := Channel.client, level := Level.info }

/-- The body of `main` (Entrypoint.h lines 9–19), statement by statement:
`Vern::Log::Init();` then `VERN_CORE_WARN("Log Initialized!");` then
`VERN_INFO("Hello World!");` then `auto app = Vern::CreateApplication();`
then `app->Run();` then `delete app;` then `return 0;`.  Its parameters
`argc`/`argv` appear nowhere in the body. -/
def mainBody : ProgState × Int :=
  let s0 := initialState
  -- Vern::Log::Init();
  let s1 : ProgState :=
    { s0 with log := Log.Init s0.log, events := s0.events ++ [Event.logInit] }
  -- VERN_CORE_WARN("Log Initialized!");
  let c1 := expandDirective s1.log vernCoreWarn ["Log Initialized!"]
  let s2 : ProgState :=
    { s1 with events := s1.events ++ [Event.logCall Channel.core c1] }
  -- VERN_INFO("Hello World!");
  let c2 := expandDirective s2.log vernInfo ["Hello World!"]
  let s3 : ProgState :=
    { s2 with events := s2.events ++ [Event.logCall Channel.client c2] }
  -- auto app = Vern::CreateApplication();
  let r := CreateApplication s3.heap
  let app := r.1
  let s4 : ProgState :=
    { s3 with heap := r.2.1, out := s3.out ++ r.2.2,
              events := s3.events ++ [Event.callCreateApplication app] }
  -- app->Run();
  let r5 := Application.Run app (s4.log, s4.heap)
  let s5 : ProgState :=
    { s4 with log := r5.1, heap := r5.2, events := s4.events ++ [Event.callRun app] }
  -- delete app;
  let s6 : ProgState :=
    { s5 with heap := s5.heap.free app, events := s5.events ++ [Event.deleteApp app] }
  -- return 0;
  (s6, 0)

/-- The signature `int main(int argc, char** argv)`: the parameters are bound but never
read by the body. -/
def main (argc : Nat) (argv : List String) : ProgState × Int :=
  mainBody

/-! ## Helper lemmas about the heap -/

/-- Reading a list of cells at its own length misses. -/
theorem cells_getD_length (l : List (Option ObjClass)) :
    l.getD l.length none = none := by
  induction l with
  | nil => rfl
  | cons x xs ih =>
      rw [List.length_cons, List.getD_cons_succ]
      exact ih

/-- Reading a list of cells extended by one cell, at the old length, yields
the new cell. -/
theorem cells_getD_append (l : List (Option ObjClass)) (x : Option ObjClass) :
    (l ++ [x]).getD l.length none = x := by
  induction l with
  | nil => rfl
  | cons y ys ih =>
      rw [List.cons_append, List.length_cons, List.getD_cons_succ]
      exact ih

/-! ## Theorems settling the claims -/

/-- C1: the framework-provided `main` executes exactly this sequence on every
run: `Vern::Log::Init`, a core-logger warning `"Log Initialized!"`, a
client-logger info message `"Hello World!"`, a call to
`Vern::CreateApplication`, `Run()` on the returned object, `delete` of that
object (after which the heap no longer holds it), and finally it returns
0. -/
theorem main_executes_documented_sequence (argc : Nat) (argv : List String) :
    (main argc argv).1.events =
      [ Event.logInit
      , Event.logCall Channel.core
          { handle := some 1, level := Level.warn, args := ["Log Initialized!"] }
      , Event.logCall Channel.client
          { handle := some 2, level := Level.info, args := ["Hello World!"] }
      , Event.callCreateApplication 1
      , Event.callRun 1
      , Event.deleteApp 1 ]
    ∧ (main argc argv).1.heap.lookup 1 = none
    ∧ (main argc argv).2 = 0 :=
  ⟨rfl, rfl, rfl⟩

/-- C2 counterexample: `Vern::Application` as declared in `Application.h` is
not an abstract class — none of its three members (constructor, virtual
destructor, plain non-virtual `Run()`) is pure virtual, so C++ permits
instantiating it directly and nothing forces a client to subclass it. -/
theorem application_is_not_abstract :
    ¬ (ApplicationDecl.isAbstract = true) := by decide

/-- C2 amended: `Vern::Application` is a polymorphic base class intended for
subclassing — it has a virtual destructor, a plain non-virtual `Run()`, no
pure virtual member (hence it is not abstract), and the client class
`Sandbox` does derive from it. -/
theorem application_polymorphic_base :
    ApplicationDecl.isAbstract = false
    ∧ (ApplicationDecl.members.all fun m => !m.isPureVirtual) = true
    ∧ (ApplicationDecl.members.any fun m =>
        m.isVirtual && (m.kind == MemberKind.dtor)) = true
    ∧ (ApplicationDecl.members.any fun m =>
        (m.mname == "Run") && !m.isVirtual && !m.isPureVirtual) = true
    ∧ SandboxDecl.bases = [ApplicationDecl.cname] := by decide

/-- C3: platform detection in `Core.h` is total over its cases — for every
preprocessor configuration, either exactly one platform macro results or
compilation aborts with an `#error`; in particular 32-bit Windows aborts
with "x86 Builds are not supported!", an Apple toolchain yields
`VERN_PLATFORM_MACOS` exactly when `TARGET_OS_MAC == 1` and otherwise
aborts with "Unknown Apple platform!", and a configuration matching no
platform aborts with "Unknown platform!". -/
theorem platform_detection_total_and_exclusive :
    (∀ c : PPConfig,
      (∃! p, detectPlatform c = Except.ok p)
        ∨ (∃ m, detectPlatform c = Except.error m))
    ∧ (∀ a mh t l d, detectPlatform ⟨true, false, a, mh, t, l, d⟩
        = Except.error "x86 Builds are not supported!")
    ∧ (∀ w64 mh l d t, detectPlatform ⟨false, w64, true, mh, t, l, d⟩
        = if t = 1 then Except.ok Platform.macos
          else Except.error "Unknown Apple platform!")
    ∧ (∀ w64 t d, detectPlatform ⟨false, w64, false, false, t, false, d⟩
        = Except.error "Unknown platform!") := by
  refine ⟨?_, fun a mh t l d => rfl, ?_, fun w64 t d => rfl⟩
  · intro c
    cases h : detectPlatform c with
    | error m => exact Or.inr ⟨m, rfl⟩
    | ok p =>
        refine Or.inl ⟨p, rfl, ?_⟩
        intro q hq
        injection hq with h2
        exact h2.symm
  · intro w64 mh l d t
    simp [detectPlatform]

/-- C4: `VERN_API` expands to `__declspec(dllexport)` exactly when both
`VERN_PLATFORM_WINDOWS` and `VERN_BUILD_DLL` are defined, to
`__declspec(dllimport)` exactly when `VERN_PLATFORM_WINDOWS` is defined and
`VERN_BUILD_DLL` is not, and to nothing exactly when
`VERN_PLATFORM_WINDOWS` is not defined. -/
theorem vern_api_expansion_cases :
    ∀ (w d : Bool),
      (vernApi w d = ApiExpansion.dllexport ↔ w = true ∧ d = true)
      ∧ (vernApi w d = ApiExpansion.dllimport ↔ w = true ∧ d = false)
      ∧ (vernApi w d = ApiExpansion.empty ↔ w = false) := by decide

/-- C5: the five `VERN_CORE_*` macros all dispatch through
`Log::getCoreLogger` to the static core handle, the five client `VERN_*`
macros all dispatch through `Log::getClientLogger` to the static client
handle, each invokes the spdlog method of its severity with the arguments
forwarded verbatim (the `Log` class does no formatting or output of its
own), and the two handles are distinct state components. -/
theorem log_dispatch_two_channels (s : LogState) (args : List String) :
    (logDirectives.map fun m => (m.name, m.channel)) =
      [ ("VERN_CORE_TRACE", Channel.core), ("VERN_CORE_INFO", Channel.core)
      , ("VERN_CORE_WARN", Channel.core), ("VERN_CORE_ERROR", Channel.core)
      , ("VERN_CORE_FATAL", Channel.core)
      , ("VERN_TRACE", Channel.client), ("VERN_INFO", Channel.client)
      , ("VERN_WARN", Channel.client), ("VERN_ERROR", Channel.client)
      , ("VERN_FATAL", Channel.client) ]
    ∧ (logDirectives.map fun m => expandDirective s m args) =
      [ { handle := Log.getCoreLogger s, level := Level.trace, args := args }
      , { handle := Log.getCoreLogger s, level := Level.info, args := args }
      , { handle := Log.getCoreLogger s, level := Level.warn, args := args }
      , { handle := Log.getCoreLogger s, level := Level.error, args := args }
      , { handle := Log.getCoreLogger s, level := Level.fatal, args := args }
      , { handle := Log.getClientLogger s, level := Level.trace, args := args }
      , { handle := Log.getClientLogger s, level := Level.info, args := args }
      , { handle := Log.getClientLogger s, level := Level.warn, args := args }
      , { handle := Log.getClientLogger s, level := Level.error, args := args }
      , { handle := Log.getClientLogger s, level := Level.fatal, args := args } ]
    ∧ Log.getCoreLogger { s_CoreLogger := some 1, s_ClientLogger := some 2 }
        ≠ Log.getClientLogger { s_CoreLogger := some 1, s_ClientLogger := some 2 } :=
  ⟨rfl, rfl, by decide⟩

/-- C6: every call to `Vern::CreateApplication` returns a non-null pointer
to a freshly heap-allocated `Sandbox` object (absent from the pre-call
heap, present in the post-call heap), `Sandbox` derives from
`Vern::Application`, and the only definition of `CreateApplication` in the
provided source is the one in the client file `SandboxApp.cpp`. -/
theorem create_application_fresh_sandbox (h : Heap) :
    (CreateApplication h).1 ≠ nullptr
    ∧ h.lookup (CreateApplication h).1 = none
    ∧ (CreateApplication h).2.1.lookup (CreateApplication h).1
        = some ObjClass.sandboxObj
    ∧ (CreateApplication h).2.2 = [sandboxCtorOutput]
    ∧ SandboxDecl.bases = [ApplicationDecl.cname]
    ∧ srcDefinitions.filter (fun d => d.qualName == "Vern::CreateApplication")
        = [{ file := "src/Sandbox/src/SandboxApp.cpp"
           , qualName := "Vern::CreateApplication" }] := by
  refine ⟨?_, ?_, ?_, rfl, by decide, by decide⟩
  · simp [CreateApplication, Heap.alloc, nullptr]
  · simp [CreateApplication, Heap.alloc, Heap.lookup, cells_getD_length]
  · simp [CreateApplication, Heap.alloc, Heap.lookup, cells_getD_append]

/-- C7: no definition of `Vern::Application::Run` exists anywhere in the
provided source, and (modelled from the spec as unimplemented) calling it
changes no observable state: neither the `Log` statics nor the heap holding
the application object. -/
theorem run_unimplemented_no_definition :
    srcDefinitions.filter (fun d => d.qualName == "Vern::Application::Run") = []
    ∧ (∀ (receiver : Nat) (s : LogState × Heap),
        Application.Run receiver s = s) :=
  ⟨by decide, fun _ _ => rfl⟩

/-- C8: `Vern::CreateApplication` never returns a null pointer (on any
heap), and in the composed program every pointer that `main` passes to
`Run()` or to `delete` — the one returned by `CreateApplication` — is
non-null. -/
theorem create_application_nonnull (h : Heap) (argc : Nat) (argv : List String) :
    (CreateApplication h).1 ≠ nullptr
    ∧ ((main argc argv).1.events.all fun e =>
        match e with
        | Event.callCreateApplication p => decide (p ≠ nullptr)
        | Event.callRun r => decide (r ≠ nullptr)
        | Event.deleteApp a => decide (a ≠ nullptr)
        | _ => true) = true
    ∧ (main argc argv).1.events.contains
        (Event.callRun (CreateApplication Heap.empty).1) = true
    ∧ (main argc argv).1.events.contains
        (Event.deleteApp (CreateApplication Heap.empty).1) = true := by
  refine ⟨?_, rfl, rfl, rfl⟩
  · simp [CreateApplication, Heap.alloc, nullptr]

/-- C9: the static logger handles are null at process start, and in the
trace of `main` no logging macro expansion occurs before the `Log::Init`
event; consequently every logging call in the trace dispatches through a
non-null handle. -/
theorem log_dispatch_never_null (argc : Nat) (argv : List String) :
    Log.getCoreLogger initialState.log = none
    ∧ Log.getClientLogger initialState.log = none
    ∧ ((main argc argv).1.events.takeWhile (fun e => !(e == Event.logInit))).all
        (fun e => match e with
          | Event.logCall _ _ => false
          | _ => true) = true
    ∧ ((main argc argv).1.events.all fun e =>
        match e with
        | Event.logCall _ c => c.handle.isSome
        | _ => true) = true :=
  ⟨rfl, rfl, rfl, rfl⟩

/-- C10: `main` neither reads `argc` nor `argv` — any two runs with any
argument values perform identical sequences of operations and both return
0. -/
theorem main_ignores_arguments :
    ∀ (argc1 : Nat) (argv1 : List String) (argc2 : Nat) (argv2 : List String),
      main argc1 argv1 = main argc2 argv2 ∧ (main argc1 argv1).2 = 0 :=
  fun _ _ _ _ => ⟨rfl, rfl⟩

/-! ## Witnesses: the theorems above instantiated at concrete inputs -/

/-- Witness for C1 at a concrete run: `main` returns 0. -/
theorem main_executes_documented_sequence_witness :
    (main 0 []).2 = 0 :=
  (main_executes_documented_sequence 0 []).2.2

/-- Witness for C3 at a concrete 32-bit Windows configuration. -/
theorem platform_detection_total_and_exclusive_witness :
    detectPlatform ⟨true, false, false, false, 0, false, false⟩
      = Except.error "x86 Builds are not supported!" :=
  platform_detection_total_and_exclusive.2.1 false false 0 false false

/-- Witness for C4 at a concrete Windows DLL build. -/
theorem vern_api_expansion_cases_witness :
    vernApi true true = ApiExpansion.dllexport ↔ true = true ∧ true = true :=
  (vern_api_expansion_cases true true).1

/-- Witness for C5 at a concrete `Log` state: the two handles differ. -/
theorem log_dispatch_two_channels_witness :
    Log.getCoreLogger { s_CoreLogger := some 1, s_ClientLogger := some 2 }
      ≠ Log.getClientLogger { s_CoreLogger := some 1, s_ClientLogger := some 2 } :=
  (log_dispatch_two_channels { s_CoreLogger := some 1, s_ClientLogger := some 2 }
    ["message"]).2.2

/-- Witness for C6 on the empty heap: the returned pointer holds a fresh
`Sandbox`. -/
theorem create_application_fresh_sandbox_witness :
    (CreateApplication Heap.empty).2.1.lookup (CreateApplication Heap.empty).1
      = some ObjClass.sandboxObj :=
  (create_application_fresh_sandbox Heap.empty).2.2.1

/-- Witness for C8 on the empty heap and a concrete run. -/
theorem create_application_nonnull_witness :
    (CreateApplication Heap.empty).1 ≠ nullptr :=
  (create_application_nonnull Heap.empty 0 []).1

/-- Witness for C9 at a concrete run: the core handle starts null. -/
theorem log_dispatch_never_null_witness :
    Log.getCoreLogger initialState.log = none :=
  (log_dispatch_never_null 0 []).1

/-- Witness for C10 at two concrete argument vectors. -/
theorem main_ignores_arguments_witness :
    main 0 [] = main 5 ["a", "b"] :=
  (main_ignores_arguments 0 [] 5 ["a", "b"]).1

end Vern
